import Mathlib

/-!
Shallow embedding of `openmc/model/model.py` (the `Model` container class).

The Python class aggregates six sub-objects (geometry, materials, settings,
tallies, cmfd, plots), type-checks every assignment, exports XML files, and
orchestrates a transport run and a depletion run.  Stateful Python methods
become pure functions returning the new state together with an optional
raised exception; methods with externally visible effects (file writes,
solver invocation, integrator calls) return explicit traces of those
effects.  The helpers `check_type` / `check_value` live in
`openmc.checkvalue` outside the excerpt, and the classes `Geometry`,
`Settings`, `Materials`, `openmc.deplete.Operator` and the statepoint
reader are likewise external; those parts are modelled from the spec, as
noted on each definition.  Numeric payloads (timesteps, powers, k-effective
values) are carried as integers: they are inert pass-through data here,
never computed with.
-/

set_option autoImplicit false

namespace OpenmcModel

/-- A nuclear material, identified by its id (contents irrelevant here). -/
structure Material where
  id : Nat
deriving DecidableEq, Repr

/-- A tally (contents irrelevant to the excerpt). -/
structure Tally where
  id : Nat
deriving DecidableEq, Repr

/-- A plot (contents irrelevant to the excerpt). -/
structure Plot where
  id : Nat
deriving DecidableEq, Repr

/-- A CMFD configuration object (contents irrelevant to the excerpt). -/
structure CMFD where
  id : Nat
deriving DecidableEq, Repr

/-- Modelled from the spec: a geometry carries references to the materials
that appear in it ("geometry's material references"); the real
`openmc.Geometry` is outside the excerpt. -/
structure Geometry where
  refMaterials : List Material
deriving DecidableEq, Repr

/-- Modelled from the spec: `Geometry.get_all_materials` (called at
`model.py` line 193 but defined outside the excerpt) returns the materials
appearing in the geometry as a dictionary keyed by material id; the export
code uses its `.values()`. -/
def Geometry.get_all_materials (g : Geometry) : List (Nat × Material) :=
  g.refMaterials.map fun m => (m.id, m)

/-- The value of `Settings.statepoint`, a dictionary of statepoint options
that may contain a key `batches` mapped to a list of batch numbers
(`model.py` lines 223-225 read exactly this much of it). -/
structure StatepointOpts where
  batches : Option (List Nat)
deriving DecidableEq, Repr

/-- Modelled from the spec: the slice of `openmc.Settings` (outside the
excerpt) that `model.py` reads: the `dagmc` flag, the number of batches,
and the optional statepoint options dictionary.  `openmc.Settings()`
defaults to `dagmc = false`, no statepoint options, and no batches set
(rendered as `0`). -/
structure Settings where
  dagmc : Bool
  batches : Nat
  statepoint : Option StatepointOpts
deriving DecidableEq, Repr

/-- Default-constructed `openmc.Settings()`. -/
def Settings.default : Settings :=
  { dagmc := false, batches := 0, statepoint := none }

/-- Python exceptions that the embedded code can raise. -/
inductive PyError where
  | typeError (name : String)
  | valueError (name : String)
  | indexError
deriving DecidableEq, Repr

/-- A dynamically typed Python value, covering the kinds of objects the
`Model` setters may receive: the six sub-object types, single materials /
tallies / plots, `None`, and representative wrong-typed values (ints,
strings, heterogeneous lists).  `materialsObj` / `talliesObj` / `plotsObj`
are instances of the list subclasses `openmc.Materials` / `openmc.Tallies`
/ `openmc.Plots`. -/
inductive PyObj where
  | geometry (g : Geometry)
  | material (m : Material)
  | materialsObj (ms : List PyObj)
  | settings (s : Settings)
  | tally (t : Tally)
  | talliesObj (ts : List PyObj)
  | cmfd (c : CMFD)
  | plot (p : Plot)
  | plotsObj (ps : List PyObj)
  | pynone
  | pyint (n : Int)
  | pystr (s : String)
  | pylist (xs : List PyObj)

/-- Python `isinstance(v, openmc.Geometry)`. -/
def isGeometryV : PyObj → Bool
  | PyObj.geometry _ => true
  | _ => false

/-- Python `isinstance(v, openmc.Material)`. -/
def isMaterialV : PyObj → Bool
  | PyObj.material _ => true
  | _ => false

/-- Python `isinstance(v, openmc.Settings)`. -/
def isSettingsV : PyObj → Bool
  | PyObj.settings _ => true
  | _ => false

/-- Python `isinstance(v, openmc.Tally)`. -/
def isTallyV : PyObj → Bool
  | PyObj.tally _ => true
  | _ => false

/-- Python `isinstance(v, openmc.Plot)`. -/
def isPlotV : PyObj → Bool
  | PyObj.plot _ => true
  | _ => false

/-- Python `isinstance(v, (openmc.CMFD, type(None)))`, the check in the
`cmfd` setter. -/
def isCmfdOrNoneV : PyObj → Bool
  | PyObj.cmfd _ => true
  | PyObj.pynone => true
  | _ => false

/-- Python `isinstance(v, collections.abc.Iterable)`: the list subclasses,
plain lists and strings are iterable; sub-objects, numbers and `None` are
not. -/
def isIterable : PyObj → Bool
  | PyObj.materialsObj _ => true
  | PyObj.talliesObj _ => true
  | PyObj.plotsObj _ => true
  | PyObj.pylist _ => true
  | PyObj.pystr _ => true
  | _ => false

/-- The elements produced by iterating a Python value (iterating a string
yields its one-character strings). -/
def pyElems : PyObj → List PyObj
  | PyObj.materialsObj ms => ms
  | PyObj.talliesObj ts => ts
  | PyObj.plotsObj ps => ps
  | PyObj.pylist xs => xs
  | PyObj.pystr s => s.data.map fun c => PyObj.pystr (String.mk [c])
  | _ => []

/-- Modelled from the spec: `openmc.checkvalue.check_type(name, value,
expected_type)` (outside the excerpt) raises `TypeError` when `value` is
not an instance of `expected_type` ("Type-checking on every property
setter raises on mismatched types").  Rendered as `some` of the raised
error, `none` when the check passes. -/
def check_type (name : String) (isInstance : PyObj → Bool) (v : PyObj) :
    Option PyError :=
  if isInstance v then none else some (PyError.typeError name)

/-- Modelled from the spec: `check_type(name, value, Iterable, elem_type)`
first checks that `value` is iterable, then checks every element against
`elem_type`, raising `TypeError` on the first mismatch; all the element
checks happen inside `check_type`, before the caller resumes. -/
def check_type_iter (name : String) (isElem : PyObj → Bool) (v : PyObj) :
    Option PyError :=
  if isIterable v then
    if (pyElems v).all isElem then none else some (PyError.typeError name)
  else some (PyError.typeError name)

/-- Modelled from the spec: `openmc.checkvalue.check_value(name, value,
allowed)` (outside the excerpt) raises `ValueError` when `value` is not in
the allowed collection ("An unrecognized depletion `method` raises via an
enumerated-value check"). -/
def check_value (name : String) (value : String) (allowed : List String) :
    Option PyError :=
  if allowed.contains value then none else some (PyError.valueError name)

/-- The stored state of a `Model` instance: the six private attributes.
`_materials`, `_tallies` and `_plots` are list-valued collections, stored
by their contents. -/
structure Model where
  _geometry : Geometry
  _materials : List Material
  _settings : Settings
  _tallies : List Tally
  _cmfd : Option CMFD
  _plots : List Plot
deriving DecidableEq, Repr

/-- Extract the `Material` from a Python value known to be one. -/
def asMaterial : PyObj → Option Material
  | PyObj.material m => some m
  | _ => none

/-- Extract the `Tally` from a Python value known to be one. -/
def asTally : PyObj → Option Tally
  | PyObj.tally t => some t
  | _ => none

/-- Extract the `Plot` from a Python value known to be one. -/
def asPlot : PyObj → Option Plot
  | PyObj.plot p => some p
  | _ => none

/-- The `geometry` setter (`model.py` lines 94-97): `check_type` then
`self._geometry = geometry`.  Returns the state after the call and the
raised exception, if any; on a raise the state is the state at raise time. -/
def Model.setGeometry (m : Model) (v : PyObj) : Model × Option PyError :=
  match check_type "geometry" isGeometryV v with
  | some e => (m, some e)
  | none =>
    match v with
    | PyObj.geometry g => ({ m with _geometry := g }, none)
    | _ => (m, none)

/-- The `materials` setter (`model.py` lines 99-107): `check_type` over the
iterable, then either rebind to the given `openmc.Materials` or clear
`self._materials` and append each element. -/
def Model.setMaterials (m : Model) (v : PyObj) : Model × Option PyError :=
  match check_type_iter "materials" isMaterialV v with
  | some e => (m, some e)
  | none =>
    match v with
    | PyObj.materialsObj ms => ({ m with _materials := ms.filterMap asMaterial }, none)
    | w => ({ m with _materials := (pyElems w).filterMap asMaterial }, none)

/-- The `settings` setter (`model.py` lines 109-112). -/
def Model.setSettings (m : Model) (v : PyObj) : Model × Option PyError :=
  match check_type "settings" isSettingsV v with
  | some e => (m, some e)
  | none =>
    match v with
    | PyObj.settings s => ({ m with _settings := s }, none)
    | _ => (m, none)

/-- The `tallies` setter (`model.py` lines 114-122). -/
def Model.setTallies (m : Model) (v : PyObj) : Model × Option PyError :=
  match check_type_iter "tallies" isTallyV v with
  | some e => (m, some e)
  | none =>
    match v with
    | PyObj.talliesObj ts => ({ m with _tallies := ts.filterMap asTally }, none)
    | w => ({ m with _tallies := (pyElems w).filterMap asTally }, none)

/-- The `cmfd` setter (`model.py` lines 124-127): accepts a CMFD instance
or `None`. -/
def Model.setCmfd (m : Model) (v : PyObj) : Model × Option PyError :=
  match check_type "cmfd" isCmfdOrNoneV v with
  | some e => (m, some e)
  | none =>
    match v with
    | PyObj.cmfd c => ({ m with _cmfd := some c }, none)
    | _ => ({ m with _cmfd := none }, none)

/-- The `plots` setter (`model.py` lines 129-137). -/
def Model.setPlots (m : Model) (v : PyObj) : Model × Option PyError :=
  match check_type_iter "plots" isPlotV v with
  | some e => (m, some e)
  | none =>
    match v with
    | PyObj.plotsObj ps => ({ m with _plots := ps.filterMap asPlot }, none)
    | w => ({ m with _plots := (pyElems w).filterMap asPlot }, none)

/-- The six assignable properties of `Model`. -/
inductive Attr where
  | geometryA
  | materialsA
  | settingsA
  | talliesA
  | cmfdA
  | plotsA
deriving DecidableEq, Repr

/-- Property assignment `model.<attr> = v`, dispatching to the setters. -/
def Model.setAttr (m : Model) (a : Attr) (v : PyObj) : Model × Option PyError :=
  match a with
  | Attr.geometryA => m.setGeometry v
  | Attr.materialsA => m.setMaterials v
  | Attr.settingsA => m.setSettings v
  | Attr.talliesA => m.setTallies v
  | Attr.cmfdA => m.setCmfd v
  | Attr.plotsA => m.setPlots v

/-- A freshly allocated instance before `__init__` runs.  Python objects
start with no attributes; every field below is assigned through a setter
by `__init__` before it can be read, so these placeholder values are never
observed. -/
def Model.blank : Model :=
  { _geometry := { refMaterials := [] }, _materials := [],
    _settings := Settings.default, _tallies := [], _cmfd := none,
    _plots := [] }

/-- Sequence two stateful steps, propagating a raised exception. -/
def pyseq (r : Model × Option PyError) (f : Model → Model × Option PyError) :
    Model × Option PyError :=
  match r with
  | (m, some e) => (m, some e)
  | (m, none) => f m

/-- `Model.__init__` (`model.py` lines 50-68): assign fresh defaults to the
six properties (the `cmfd` argument is assigned directly in this first
block), then re-assign each of the other five properties from its argument
when that argument is not `None`.  Every assignment goes through the
corresponding type-checking setter. -/
def Model.init (geometry materials settings tallies cmfd plots : PyObj) :
    Model × Option PyError :=
  pyseq (Model.blank.setGeometry (PyObj.geometry { refMaterials := [] })) fun m =>
  pyseq (m.setMaterials (PyObj.materialsObj [])) fun m =>
  pyseq (m.setSettings (PyObj.settings Settings.default)) fun m =>
  pyseq (m.setCmfd cmfd) fun m =>
  pyseq (m.setTallies (PyObj.talliesObj [])) fun m =>
  pyseq (m.setPlots (PyObj.plotsObj [])) fun m =>
  pyseq (match geometry with
         | PyObj.pynone => (m, none)
         | g => m.setGeometry g) fun m =>
  pyseq (match materials with
         | PyObj.pynone => (m, none)
         | ms => m.setMaterials ms) fun m =>
  pyseq (match settings with
         | PyObj.pynone => (m, none)
         | s => m.setSettings s) fun m =>
  pyseq (match tallies with
         | PyObj.pynone => (m, none)
         | ts => m.setTallies ts) fun m =>
  match plots with
  | PyObj.pynone => (m, none)
  | ps => m.setPlots ps

/-- An XML file written by `export_to_xml`, with the materials / tallies /
plots contents recorded. -/
inductive XmlOut where
  | settingsXml
  | geometryXml
  | materialsXml (ms : List Material)
  | talliesXml (ts : List Tally)
  | cmfdXml
  | plotsXml (ps : List Plot)
deriving DecidableEq, Repr

/-- `Model.export_to_xml` (`model.py` lines 180-202), as the sequence of
XML files it writes: always `settings.xml`; `geometry.xml` unless
`settings.dagmc`; `materials.xml` from the stored collection when that is
non-empty (Python truthiness of a list) and otherwise from the values of
`geometry.get_all_materials()`; then `tallies.xml`, `cmfd.xml`,
`plots.xml` conditionally. -/
def Model.export_to_xml (m : Model) : List XmlOut :=
  [XmlOut.settingsXml]
  ++ (if m._settings.dagmc then [] else [XmlOut.geometryXml])
  ++ (if m._materials.isEmpty then
        [XmlOut.materialsXml ((Geometry.get_all_materials m._geometry).map Prod.snd)]
      else [XmlOut.materialsXml m._materials])
  ++ (if m._tallies.isEmpty then [] else [XmlOut.talliesXml m._tallies])
  ++ (match m._cmfd with
      | some _ => [XmlOut.cmfdXml]
      | none => [])
  ++ (if m._plots.isEmpty then [] else [XmlOut.plotsXml m._plots])

/-- Modelled from the spec: the combined k-effective estimate read from a
statepoint, "a combined k-effective value with associated uncertainty"
(an `uncertainties.UFloat`); the numeric payload is inert here. -/
structure UFloat where
  nominal : Int
  std_dev : Int
deriving DecidableEq, Repr

/-- The statepoint file name `'statepoint.{}.h5'.format(n)`
(`model.py` line 227). -/
def spFileName (n : Nat) : String := "statepoint." ++ toString n ++ ".h5"

/-- `model.py` lines 222-225: the batch number used in the statepoint file
name.  `n = settings.batches`; when `settings.statepoint` is not `None`
and contains the key `batches`, `n = settings.statepoint['batches'][-1]`
instead — and indexing `[-1]` on an empty list raises `IndexError`. -/
def statepointBatches (s : Settings) : Except PyError Nat :=
  match s.statepoint with
  | none => Except.ok s.batches
  | some opts =>
    match opts.batches with
    | none => Except.ok s.batches
    | some l =>
      match l.getLast? with
      | some k => Except.ok k
      | none => Except.error PyError.indexError

/-- An externally visible step of `Model.run`. -/
inductive RunStep where
  | exportXml (outs : List XmlOut)
  | invokeSolver
  | readStatepoint (fname : String)
deriving DecidableEq, Repr

/-- `Model.run` (`model.py` lines 204-228): export the XML files, call
`openmc.run()` (the external solver, a black box whose only effect here is
producing statepoint files), compute the statepoint batch number, and read
`k_combined` from the statepoint file.  The statepoint reader is modelled
from the spec as an oracle `k_combined` from file names to the combined
k-effective stored in that file.  Returns the trace of steps and the
returned value or raised exception. -/
def Model.run (m : Model) (k_combined : String → UFloat) :
    List RunStep × Except PyError UFloat :=
  let ex := m.export_to_xml
  match statepointBatches m._settings with
  | Except.error e =>
      ([RunStep.exportXml ex, RunStep.invokeSolver], Except.error e)
  | Except.ok n =>
      ([RunStep.exportXml ex, RunStep.invokeSolver,
        RunStep.readStatepoint (spFileName n)],
       Except.ok (k_combined (spFileName n)))

/-- The reactor power argument of `deplete`: "float or iterable of float";
the numeric payload is inert here. -/
inductive Power where
  | scalar (p : Int)
  | profile (ps : List Int)
deriving DecidableEq, Repr

/-- Modelled from the spec: `openmc.deplete.Operator` (outside the
excerpt), the depletion transport operator constructed from the model's
geometry, settings and chain file ("consume geometry/settings plus a
nuclear-data chain file"). -/
structure Operator where
  geometry : Geometry
  settings : Settings
  chain_file : Option String
deriving DecidableEq, Repr

/-- An invocation of one of the two depletion integrators. -/
inductive DepleteCall where
  | predictor (op : Operator) (timesteps : List Int) (power : Power)
  | cecm (op : Operator) (timesteps : List Int) (power : Power)
deriving DecidableEq, Repr

/-- `Model.deplete` (`model.py` lines 139-178): construct the operator
from `self.geometry`, `self.settings` and `chain_file`, then dispatch on
`method`: `'predictor'` and `'cecm'` call the correspondingly named
integrator; anything else falls through to `check_value`, which raises
`ValueError`.  Returns the integrator invocations and the raised
exception, if any. -/
def Model.deplete (m : Model) (timesteps : List Int) (power : Power)
    (chain_file : Option String) (method : String) :
    List DepleteCall × Option PyError :=
  let op : Operator := { geometry := m._geometry, settings := m._settings,
                         chain_file := chain_file }
  if method = "predictor" then
    ([DepleteCall.predictor op timesteps power], none)
  else if method = "cecm" then
    ([DepleteCall.cecm op timesteps power], none)
  else
    ([], check_value "method" method ["cecm", "predictor"])

/-- The materials contents of a `materials.xml` output, `none` for the
other files. -/
def materialsFileContent : XmlOut → Option (List Material)
  | XmlOut.materialsXml ms => some ms
  | _ => none

/-- Whether an export trace writes `settings.xml`. -/
def emitsSettings (outs : List XmlOut) : Bool :=
  outs.any fun o => match o with
    | XmlOut.settingsXml => true
    | _ => false

/-- Whether an export trace writes `geometry.xml`. -/
def emitsGeometry (outs : List XmlOut) : Bool :=
  outs.any fun o => match o with
    | XmlOut.geometryXml => true
    | _ => false

/-- Whether an export trace writes `tallies.xml`. -/
def emitsTallies (outs : List XmlOut) : Bool :=
  outs.any fun o => match o with
    | XmlOut.talliesXml _ => true
    | _ => false

/-- Whether an export trace writes `cmfd.xml`. -/
def emitsCmfd (outs : List XmlOut) : Bool :=
  outs.any fun o => match o with
    | XmlOut.cmfdXml => true
    | _ => false

/-- Whether an export trace writes `plots.xml`. -/
def emitsPlots (outs : List XmlOut) : Bool :=
  outs.any fun o => match o with
    | XmlOut.plotsXml _ => true
    | _ => false

/-- Whether a run step reads a statepoint file. -/
def isReadStep : RunStep → Bool
  | RunStep.readStatepoint _ => true
  | _ => false

/-! ## Helper lemmas about the setters -/

theorem setGeometry_snd (m : Model) (v : PyObj) :
    (m.setGeometry v).2 =
      if isGeometryV v then none else some (PyError.typeError "geometry") := by
  cases v <;> rfl

theorem setSettings_snd (m : Model) (v : PyObj) :
    (m.setSettings v).2 =
      if isSettingsV v then none else some (PyError.typeError "settings") := by
  cases v <;> rfl

theorem setCmfd_snd (m : Model) (v : PyObj) :
    (m.setCmfd v).2 =
      if isCmfdOrNoneV v then none else some (PyError.typeError "cmfd") := by
  cases v <;> rfl

theorem setMaterials_snd (m : Model) (v : PyObj) :
    (m.setMaterials v).2 =
      if isIterable v && (pyElems v).all isMaterialV then none
      else some (PyError.typeError "materials") := by
  unfold Model.setMaterials check_type_iter
  by_cases h1 : isIterable v
  · by_cases h2 : (pyElems v).all isMaterialV
    · simp only [h1, h2, Bool.and_self, if_true]
      cases v <;> rfl
    · simp [h1, h2]
  · simp [h1]

theorem setTallies_snd (m : Model) (v : PyObj) :
    (m.setTallies v).2 =
      if isIterable v && (pyElems v).all isTallyV then none
      else some (PyError.typeError "tallies") := by
  unfold Model.setTallies check_type_iter
  by_cases h1 : isIterable v
  · by_cases h2 : (pyElems v).all isTallyV
    · simp only [h1, h2, Bool.and_self, if_true]
      cases v <;> rfl
    · simp [h1, h2]
  · simp [h1]

theorem setPlots_snd (m : Model) (v : PyObj) :
    (m.setPlots v).2 =
      if isIterable v && (pyElems v).all isPlotV then none
      else some (PyError.typeError "plots") := by
  unfold Model.setPlots check_type_iter
  by_cases h1 : isIterable v
  · by_cases h2 : (pyElems v).all isPlotV
    · simp only [h1, h2, Bool.and_self, if_true]
      cases v <;> rfl
    · simp [h1, h2]
  · simp [h1]

theorem setGeometry_error_frozen (m : Model) (v : PyObj) :
    ((m.setGeometry v).2).isSome → (m.setGeometry v).1 = m := by
  cases v <;> simp [Model.setGeometry, check_type, isGeometryV]

theorem setSettings_error_frozen (m : Model) (v : PyObj) :
    ((m.setSettings v).2).isSome → (m.setSettings v).1 = m := by
  cases v <;> simp [Model.setSettings, check_type, isSettingsV]

theorem setCmfd_error_frozen (m : Model) (v : PyObj) :
    ((m.setCmfd v).2).isSome → (m.setCmfd v).1 = m := by
  cases v <;> simp [Model.setCmfd, check_type, isCmfdOrNoneV]

theorem setMaterials_error_frozen (m : Model) (v : PyObj) :
    ((m.setMaterials v).2).isSome → (m.setMaterials v).1 = m := by
  unfold Model.setMaterials
  rcases hc : check_type_iter "materials" isMaterialV v with _ | e
  · cases v <;> simp
  · simp

theorem setTallies_error_frozen (m : Model) (v : PyObj) :
    ((m.setTallies v).2).isSome → (m.setTallies v).1 = m := by
  unfold Model.setTallies
  rcases hc : check_type_iter "tallies" isTallyV v with _ | e
  · cases v <;> simp
  · simp

theorem setPlots_error_frozen (m : Model) (v : PyObj) :
    ((m.setPlots v).2).isSome → (m.setPlots v).1 = m := by
  unfold Model.setPlots
  rcases hc : check_type_iter "plots" isPlotV v with _ | e
  · cases v <;> simp
  · simp

/-! ## Claim theorems: setters -/

/-- C3: every setter type-checks its argument and raises `TypeError`
exactly when the argument has the wrong type: `geometry` requires an
`openmc.Geometry`, `settings` an `openmc.Settings`, `cmfd` an
`openmc.CMFD` or `None`, and `materials` / `tallies` / `plots` iterables
whose elements are all `openmc.Material` / `openmc.Tally` /
`openmc.Plot`. -/
theorem setter_type_checking (m : Model) (v : PyObj) :
    (m.setGeometry v).2 = (if isGeometryV v then none
        else some (PyError.typeError "geometry")) ∧
    (m.setMaterials v).2 = (if isIterable v && (pyElems v).all isMaterialV
        then none else some (PyError.typeError "materials")) ∧
    (m.setSettings v).2 = (if isSettingsV v then none
        else some (PyError.typeError "settings")) ∧
    (m.setTallies v).2 = (if isIterable v && (pyElems v).all isTallyV
        then none else some (PyError.typeError "tallies")) ∧
    (m.setCmfd v).2 = (if isCmfdOrNoneV v then none
        else some (PyError.typeError "cmfd")) ∧
    (m.setPlots v).2 = (if isIterable v && (pyElems v).all isPlotV
        then none else some (PyError.typeError "plots")) :=
  ⟨setGeometry_snd m v, setMaterials_snd m v, setSettings_snd m v,
   setTallies_snd m v, setCmfd_snd m v, setPlots_snd m v⟩

/-- C8: a property assignment that raises a type error leaves every stored
sub-object unchanged: the type check (including the element-wise checks of
the collection setters) runs to completion before any stored state is
cleared or replaced. -/
theorem setter_failure_preserves_state (m : Model) (a : Attr) (v : PyObj)
    (h : ((m.setAttr a v).2).isSome) : (m.setAttr a v).1 = m := by
  cases a with
  | geometryA => exact setGeometry_error_frozen m v h
  | materialsA => exact setMaterials_error_frozen m v h
  | settingsA => exact setSettings_error_frozen m v h
  | talliesA => exact setTallies_error_frozen m v h
  | cmfdA => exact setCmfd_error_frozen m v h
  | plotsA => exact setPlots_error_frozen m v h

/-- C8 witness: assigning a list holding a material and an int to
`materials` fails the element-wise check and leaves the model unchanged. -/
theorem setter_failure_preserves_state_witness :
    ((Model.blank.setAttr Attr.materialsA
        (PyObj.pylist [PyObj.material { id := 1 }, PyObj.pyint 7])).2).isSome = true ∧
    (Model.blank.setAttr Attr.materialsA
        (PyObj.pylist [PyObj.material { id := 1 }, PyObj.pyint 7])).1 = Model.blank :=
  ⟨rfl, setter_failure_preserves_state Model.blank Attr.materialsA
    (PyObj.pylist [PyObj.material { id := 1 }, PyObj.pyint 7]) (by decide)⟩

/-- C10: `cmfd` is the only property accepting `None`: assigning `None` to
`cmfd` succeeds and stores `None`, assigning `None` to any of the other
five properties raises `TypeError`, and `Model()` with no arguments ends
with `cmfd = None` and fresh empty defaults everywhere else. -/
theorem cmfd_none_special (m : Model) :
    m.setCmfd PyObj.pynone = ({ m with _cmfd := none }, none) ∧
    (m.setGeometry PyObj.pynone).2 = some (PyError.typeError "geometry") ∧
    (m.setMaterials PyObj.pynone).2 = some (PyError.typeError "materials") ∧
    (m.setSettings PyObj.pynone).2 = some (PyError.typeError "settings") ∧
    (m.setTallies PyObj.pynone).2 = some (PyError.typeError "tallies") ∧
    (m.setPlots PyObj.pynone).2 = some (PyError.typeError "plots") ∧
    Model.init PyObj.pynone PyObj.pynone PyObj.pynone PyObj.pynone PyObj.pynone
        PyObj.pynone =
      ({ _geometry := { refMaterials := [] }, _materials := [],
         _settings := Settings.default, _tallies := [], _cmfd := none,
         _plots := [] }, none) :=
  ⟨rfl, rfl, rfl, rfl, rfl, rfl, rfl⟩

/-! ## Claim theorems: export_to_xml -/

/-- C1: `export_to_xml` writes exactly one `materials.xml`; its contents
are the stored materials collection when that collection is non-empty, and
otherwise exactly the values of `geometry.get_all_materials()`. -/
theorem materials_export_source (m : Model) :
    (m.export_to_xml).filterMap materialsFileContent =
      [if m._materials.isEmpty then
         (Geometry.get_all_materials m._geometry).map Prod.snd
       else m._materials] := by
  unfold Model.export_to_xml
  by_cases h1 : m._settings.dagmc <;>
  by_cases h2 : m._materials.isEmpty <;>
  by_cases h3 : m._tallies.isEmpty <;>
  by_cases h4 : m._plots.isEmpty <;>
  rcases h5 : m._cmfd with _ | c <;>
  simp [h1, h2, h3, h4, h5, materialsFileContent]

/-- C4: `export_to_xml` writes `tallies.xml` iff the tallies collection is
non-empty, `cmfd.xml` iff `cmfd` is not `None`, and `plots.xml` iff the
plots collection is non-empty. -/
theorem conditional_exports (m : Model) :
    emitsTallies m.export_to_xml = !m._tallies.isEmpty ∧
    emitsCmfd m.export_to_xml = (m._cmfd).isSome ∧
    emitsPlots m.export_to_xml = !m._plots.isEmpty := by
  unfold Model.export_to_xml emitsTallies emitsCmfd emitsPlots
  by_cases h1 : m._settings.dagmc <;>
  by_cases h2 : m._materials.isEmpty <;>
  by_cases h3 : m._tallies.isEmpty <;>
  by_cases h4 : m._plots.isEmpty <;>
  rcases h5 : m._cmfd with _ | c <;>
  simp [h1, h2, h3, h4, h5]

/-- C9: `export_to_xml` always writes `settings.xml`, and writes
`geometry.xml` iff `settings.dagmc` is false. -/
theorem settings_geometry_export (m : Model) :
    emitsSettings m.export_to_xml = true ∧
    emitsGeometry m.export_to_xml = !m._settings.dagmc := by
  unfold Model.export_to_xml emitsSettings emitsGeometry
  by_cases h1 : m._settings.dagmc <;>
  by_cases h2 : m._materials.isEmpty <;>
  by_cases h3 : m._tallies.isEmpty <;>
  by_cases h4 : m._plots.isEmpty <;>
  rcases h5 : m._cmfd with _ | c <;>
  simp [h1, h2, h3, h4, h5]

/-! ## Claim theorems: deplete -/

/-- C5: `deplete` with a method outside {'cecm', 'predictor'} invokes
neither integrator and raises `ValueError` from the enumerated-value
check. -/
theorem deplete_unknown_method (m : Model) (timesteps : List Int)
    (power : Power) (chain_file : Option String) (method : String)
    (h1 : method ≠ "cecm") (h2 : method ≠ "predictor") :
    Model.deplete m timesteps power chain_file method =
      ([], some (PyError.valueError "method")) := by
  unfold Model.deplete check_value
  simp [h1, h2, List.contains]

/-- C5 witness: `deplete` with method `'rk4'`. -/
theorem deplete_unknown_method_witness :
    Model.deplete Model.blank [] (Power.scalar 0) none "rk4" =
      ([], some (PyError.valueError "method")) :=
  deplete_unknown_method Model.blank [] (Power.scalar 0) none "rk4"
    (by decide) (by decide)

/-- C7: `deplete` with method `'cecm'` (resp. `'predictor'`) invokes
exactly the one correspondingly named integrator, exactly once, on the
operator built from the model's geometry, the model's settings and the
given chain file, with the given timesteps and power. -/
theorem deplete_known_method_dispatch (m : Model) (timesteps : List Int)
    (power : Power) (chain_file : Option String) :
    Model.deplete m timesteps power chain_file "cecm" =
      ([DepleteCall.cecm { geometry := m._geometry, settings := m._settings,
                           chain_file := chain_file } timesteps power], none) ∧
    Model.deplete m timesteps power chain_file "predictor" =
      ([DepleteCall.predictor { geometry := m._geometry, settings := m._settings,
                                chain_file := chain_file } timesteps power], none) :=
  ⟨rfl, rfl⟩

/-! ## Claim theorems: run -/

/-- A statepoint-reader oracle assigning the same k-effective to every
file, for concrete instantiations. -/
def constKComb : String → UFloat := fun _ => { nominal := 1, std_dev := 1 }

/-- Settings carrying 10 batches but a statepoint option requesting a
statepoint at batch 5. -/
def cexRunSettings : Settings :=
  { dagmc := false, batches := 10, statepoint := some { batches := some [5] } }

/-- A model with `cexRunSettings`. -/
def cexRunModel : Model := { Model.blank with _settings := cexRunSettings }

/-- C2 counterexample: for a model with `settings.batches = 10` and
`settings.statepoint = {'batches': [5]}`, `run` reads
`statepoint.5.h5` — not `statepoint.10.h5`, the name built from the
settings batch count — because lines 223-225 override `n` with
`statepoint['batches'][-1]`. -/
theorem run_statepoint_name_cex :
    cexRunModel._settings.batches = 10 ∧
    (Model.run cexRunModel constKComb).1 =
      [RunStep.exportXml (Model.export_to_xml cexRunModel), RunStep.invokeSolver,
       RunStep.readStatepoint "statepoint.5.h5"] ∧
    RunStep.readStatepoint "statepoint.10.h5" ∉ (Model.run cexRunModel constKComb).1 ∧
    (Model.run cexRunModel constKComb).2 = Except.ok (constKComb "statepoint.5.h5") :=
  ⟨rfl, rfl, by decide, rfl⟩

/-- C2 (amended): `run` exports the XML files, invokes the solver, and
returns the combined k-effective read from `statepoint.<n>.h5`, where `n`
is the settings batch count unless `settings.statepoint` contains a
(non-empty) `batches` list, in which case `n` is the last element of that
list (`statepointBatches` renders lines 222-225, with `IndexError` on an
empty list). -/
theorem run_returns_statepoint_k (m : Model) (k_combined : String → UFloat)
    (n : Nat) (h : statepointBatches m._settings = Except.ok n) :
    Model.run m k_combined =
      ([RunStep.exportXml m.export_to_xml, RunStep.invokeSolver,
        RunStep.readStatepoint (spFileName n)],
       Except.ok (k_combined (spFileName n))) := by
  unfold Model.run
  rw [h]

/-- Settings with 10 batches and no statepoint options. -/
def plainRunSettings : Settings :=
  { dagmc := false, batches := 10, statepoint := none }

/-- A model with `plainRunSettings`. -/
def plainRunModel : Model := { Model.blank with _settings := plainRunSettings }

/-- C2 witness: with no statepoint options, `run` reads
`statepoint.10.h5` built from the 10 settings batches. -/
theorem run_returns_statepoint_k_witness :
    statepointBatches plainRunModel._settings = Except.ok 10 ∧
    Model.run plainRunModel constKComb =
      ([RunStep.exportXml plainRunModel.export_to_xml, RunStep.invokeSolver,
        RunStep.readStatepoint (spFileName 10)],
       Except.ok (constKComb (spFileName 10))) :=
  ⟨rfl, run_returns_statepoint_k plainRunModel constKComb 10 rfl⟩

/-- Settings whose statepoint options hold an empty `batches` list. -/
def cexOrderSettings : Settings :=
  { dagmc := false, batches := 7, statepoint := some { batches := some [] } }

/-- A model with `cexOrderSettings`. -/
def cexOrderModel : Model := { Model.blank with _settings := cexOrderSettings }

/-- C6 counterexample: with `settings.statepoint = {'batches': []}`, `run`
raises `IndexError` from `statepoint['batches'][-1]` after the solver call
and never reads a statepoint file, so the read step does not occur. -/
theorem run_order_cex :
    ((Model.run cexOrderModel constKComb).1.filter isReadStep) = [] ∧
    (Model.run cexOrderModel constKComb).2 = Except.error PyError.indexError :=
  ⟨rfl, rfl⟩

/-- C6 (amended): every `run` first writes the XML files via
`export_to_xml`, then invokes the solver, exactly once each in that order;
the statepoint read happens exactly once, after the solver invocation,
whenever computing the statepoint batch number succeeds, and not at all
when that computation raises (empty `statepoint['batches']` list). -/
theorem run_step_order (m : Model) (k_combined : String → UFloat) :
    (Model.run m k_combined).1 =
      [RunStep.exportXml m.export_to_xml, RunStep.invokeSolver] ++
        (match statepointBatches m._settings with
         | Except.ok n => [RunStep.readStatepoint (spFileName n)]
         | Except.error _ => []) := by
  unfold Model.run
  rcases h : statepointBatches m._settings with e | n <;> simp [h]

end OpenmcModel
